import Mathlib

/-!
# Verification development for `berkan-cetinkaya/captcha`

A shallow embedding of the policy store (`internal/policy/store.go`) and of the
verification service (`service.go`), followed by the theorems that settle the
claims made about them.

Modelling conventions.

* Go `string` values are Lean `String`s (the strings involved are decoded from JSON
  or read from configuration, hence valid UTF-8).
* Go `float64` values that reach the comparisons of the service are finite (they are
  decoded from JSON numbers); a finite `float64` is a rational number and `<` on finite
  floats is `<` on those rationals, so scores are values of `ℚ`.
* A Go `error` is represented by its message; `fmt.Errorf("...: %w", err)` is string
  concatenation. A `(T, error)` result is `Except String T`.
* A Go `map[string]V` is an association list with distinct keys; the order of the list
  is the (unspecified) iteration order.
* External calls (configuration lookup, `os.Stat`, `os.ReadFile`, `json.Unmarshal`, the
  remote verifier) are fields of a `World`; every call is recorded as an `Event` at
  the place where the source performs it.
* Locks are not modelled: the development is about one sequential caller.
-/

namespace Captcha

/-! ## Strings -/

/-- Go `unicode.IsSpace`: the Latin-1 cases are listed one by one, beyond Latin-1 the
`White_Space` range table decides. -/
def isSpace (r : Char) : Bool :=
  let n := r.toNat
  if n ≤ 0xFF then
    n == 0x09 || n == 0x0A || n == 0x0B || n == 0x0C || n == 0x0D || n == 0x20 ||
      n == 0x85 || n == 0xA0
  else
    n == 0x1680 || (0x2000 ≤ n && n ≤ 0x200A) || n == 0x2028 || n == 0x2029 ||
      n == 0x202F || n == 0x205F || n == 0x3000

/-- Go `strings.TrimSpace`: the string without its leading and trailing white space. -/
def TrimSpace (s : String) : String :=
  String.mk ((s.data.dropWhile isSpace).reverse.dropWhile isSpace).reverse

/-! ## Go maps with string keys -/

/-- A `map[string]V`, as the list of its entries. -/
abbrev GoMap (V : Type) := List (String × V)

namespace GoMap

/-- The keys of the map, in iteration order. -/
def keys {V : Type} (m : GoMap V) : List String := m.map Prod.fst

/-- The comma-ok lookup `v, ok := m[k]`, as an option. -/
def get? {V : Type} (m : GoMap V) (k : String) : Option V := List.lookup k m

/-- The assignment `m[k] = v`. -/
def set {V : Type} (m : GoMap V) (k : String) (v : V) : GoMap V :=
  (k, v) :: m.filter (fun kv => kv.1 != k)

end GoMap

/-! ## `internal/policy/store.go` -/

/-- The constant `defaultMinScore`. -/
def defaultMinScore : ℚ := 1 / 2

/-- The struct `Policy`. -/
structure Policy where
  MinScore : ℚ
  SiteKey : String
  SecretKey : String
  Theme : String
  Appearance : String
  deriving DecidableEq, Repr

/-- The struct `rawPolicy`: a fragment of the document; `min_score` may be absent, an
absent string field is the empty string. -/
structure rawPolicy where
  MinScore : Option ℚ
  SiteKey : String
  SecretKey : String
  Theme : String
  Appearance : String
  deriving DecidableEq, Repr

/-- The struct `rawPolicyConfig`: the decoded policy document. -/
structure rawPolicyConfig where
  Provider : String
  Global : rawPolicy
  Actions : GoMap rawPolicy
  deriving DecidableEq, Repr

/-- The struct `Store` (without its lock). -/
structure Store where
  global : Policy
  actions : GoMap Policy
  provider : String
  deriving DecidableEq, Repr

/-- The body of the loop `for name, raw := range cfg.Actions` of `parseAndBuild`, run
over the entries still to visit, with the loop-carried variables `actions` and
`missingSiteKey`. The first blank action name ends the function with an error. -/
def actionsLoop (base : Policy) :
    List (String × rawPolicy) → GoMap Policy → Bool → Except String (GoMap Policy × Bool)
  | [], actions, missingSiteKey => .ok (actions, missingSiteKey)
  | (name, raw) :: rest, actions, missingSiteKey =>
    if TrimSpace name = "" then
      .error "captcha policy action name cannot be empty"
    else
      let p := base
      let p := match raw.MinScore with
        | some m => { p with MinScore := m }
        | none => p
      let s := TrimSpace raw.SiteKey
      let missingSiteKey := if s ≠ "" then missingSiteKey
        else if p.SiteKey = "" then true else missingSiteKey
      let p := if s ≠ "" then { p with SiteKey := s } else p
      let s := TrimSpace raw.SecretKey
      let p := if s ≠ "" then { p with SecretKey := s } else p
      let s := TrimSpace raw.Theme
      let p := if s ≠ "" then { p with Theme := s } else p
      let s := TrimSpace raw.Appearance
      let p := if s ≠ "" then { p with Appearance := s } else p
      actionsLoop base rest (actions.set name p) missingSiteKey

/-- The function `parseAndBuild`; `unmarshal` is `json.Unmarshal` into a
`rawPolicyConfig`. -/
def parseAndBuild (unmarshal : List Nat → Except String rawPolicyConfig)
    (data : List Nat) : Except String Store :=
  match unmarshal data with
  | .error err => .error ("could not parse captcha policy config: " ++ err)
  | .ok cfg =>
    if TrimSpace cfg.Provider = "" then
      .error "captcha policy requires provider"
    else if cfg.Actions.length = 0 then
      .error "captcha policy requires at least one action"
    else
      let base : Policy :=
        { MinScore := defaultMinScore
          SiteKey := TrimSpace cfg.Global.SiteKey
          SecretKey := TrimSpace cfg.Global.SecretKey
          Theme := TrimSpace cfg.Global.Theme
          Appearance := TrimSpace cfg.Global.Appearance }
      let base := match cfg.Global.MinScore with
        | some m => { base with MinScore := m }
        | none => base
      let missingSiteKey := decide (base.SiteKey = "")
      match actionsLoop base cfg.Actions [] missingSiteKey with
      | .error err => .error err
      | .ok (actions, missingSiteKey) =>
        if missingSiteKey then
          .error "captcha policy requires a site_key in global or for every action"
        else
          .ok { global := base, actions := actions, provider := TrimSpace cfg.Provider }

/-- The method `(*Store).PolicyFor`. -/
def Store.PolicyFor (ps : Store) (action : String) : Policy × Bool :=
  match ps.actions.get? action with
  | some policy => (policy, true)
  | none => (ps.global, false)

/-- The method `(*Store).Provider`. -/
def Store.Provider (ps : Store) : String := ps.provider

/-! ## The outside world and the effects of a call -/

/-- The value `time.Time` of a modification time: the instant, and the rest of the
representation (location), which `Equal` ignores. -/
structure Time where
  instant : Int
  loc : Nat
  deriving DecidableEq, Repr

/-- The method `Time.Equal`: the two values denote the same instant. -/
def Time.Equal (t u : Time) : Bool := t.instant == u.instant

/-- The struct `verifier.Result`. -/
structure Result where
  Success : Bool
  Action : String
  Score : Option ℚ
  ErrorCodes : List String
  deriving DecidableEq, Repr

/-- The interface `config.Source`, reduced to its method `Get`. -/
abbrev Source := String → Except String String

/-- The interface `verifier.Verifier`: the method `Verify(ctx, token, ip)`. -/
abbrev Verifier := String → String → Except String Result

/-- What a call may consult outside the program. -/
structure World where
  /-- The memoised outcome of `getDefaultManager`: the selected source or the error. -/
  manager : Except String Source
  /-- The call `os.Stat(path)`, reduced to `ModTime()` of the file information. -/
  stat : String → Except String Time
  /-- The call `os.ReadFile(path)`. -/
  readFile : String → Except String (List Nat)
  /-- The call `json.Unmarshal(data, &cfg)` for a `rawPolicyConfig`. -/
  unmarshal : List Nat → Except String rawPolicyConfig
  /-- The verb `%.2f` of `fmt` on a `float64`. -/
  fmt2f : ℚ → String

/-- The external calls and log lines of an execution, in the order they happen. -/
inductive Event where
  | configGet (key : String)
  | stat (path : String)
  | readFile (path : String)
  | parse (data : List Nat)
  | log (line : String)
  | buildVerifier (secret : String)
  | verify (token ip : String)
  deriving DecidableEq, Repr

/-- The method `(*EnvSource).Get` over an environment (`os.Getenv` gives `""` for an
unset variable). -/
def EnvSource.Get (getenv : String → String) : Source := fun key =>
  let val := getenv key
  if val = "" then .error ("env " ++ key ++ " not set") else .ok val

/-- The function `config.Get`. -/
def configGet (w : World) (key : String) : Except String String × List Event :=
  match w.manager with
  | .error err => (.error err, [Event.configGet key])
  | .ok mgr => (mgr key, [Event.configGet key])

/-- The function `resolvePolicyPath`. -/
def resolvePolicyPath (w : World) : Except String String × List Event :=
  match configGet w "CAPTCHA_CONFIG" with
  | (.error _, t) => (.error "CAPTCHA_CONFIG must be set", t)
  | (.ok val, t) =>
    let env := TrimSpace val
    if env = "" then
      (.error "CAPTCHA_CONFIG must be set", t)
    else
      match w.stat env with
      | .error err =>
        (.error ("could not stat captcha policy config (" ++ env ++ "): " ++ err),
          t ++ [Event.stat env])
      | .ok _ => (.ok env, t ++ [Event.stat env])

/-- The package variables `policies`, `policyPath` and `policyModTime`. -/
structure Cache where
  policies : Option Store
  policyPath : String
  policyModTime : Time
  deriving DecidableEq, Repr

/-- The function `Current`: the result, the package variables after the call and the
external calls made. -/
def Current (w : World) (c : Cache) : Except String Store × Cache × List Event :=
  match resolvePolicyPath w with
  | (.error err, t) => (.error err, c, t)
  | (.ok path, t) =>
    match w.stat path with
    | .error err =>
      (.error ("could not stat captcha policy config: " ++ err), c, t ++ [Event.stat path])
    | .ok modTime =>
      let t := t ++ [Event.stat path]
      let hit : Option Store :=
        match c.policies with
        | some cached =>
          if path = c.policyPath ∧ modTime.Equal c.policyModTime = true then some cached
          else none
        | none => none
      match hit with
      | some cached => (.ok cached, c, t)
      | none =>
        match w.readFile path with
        | .error err =>
          (.error ("could not open captcha policy config: " ++ err), c,
            t ++ [Event.readFile path])
        | .ok data =>
          match parseAndBuild w.unmarshal data with
          | .error err => (.error err, c, t ++ [Event.readFile path, Event.parse data])
          | .ok store =>
            (.ok store,
              { policies := some store, policyPath := path, policyModTime := modTime },
              t ++ [Event.readFile path, Event.parse data])

/-! ## `internal/verifier` -/

/-- The remote end of a verifier: the HTTP exchange (endpoint and form fields to the
response body, or a transport error) and the JSON decoding of the body. -/
structure Remote (Raw : Type) where
  post : String → List (String × String) → Except String (List Nat)
  decode : List Nat → Except String Raw

/-- The form of a verification request: `secret`, `response`, and `remoteip` when the
address is not empty. -/
def requestForm (secret token ip : String) : List (String × String) :=
  [("secret", secret), ("response", token)] ++ (if ip ≠ "" then [("remoteip", ip)] else [])

/-- The constant `googleEndpoint`. -/
def googleEndpoint : String := "https://www.google.com/recaptcha/api/siteverify"

/-- The constant `turnstileEndpoint`. -/
def turnstileEndpoint : String :=
  "https://challenges.cloudflare.com/turnstile/v0/siteverify"

/-- The anonymous struct `raw` of `(*Google).Verify`; an omitted field has the zero
value. -/
structure googleRaw where
  Success : Bool
  Score : ℚ
  Action : String
  ErrorCodes : List String
  deriving DecidableEq, Repr

/-- The anonymous struct `raw` of `(*Turnstile).Verify`; an omitted field has the zero
value. -/
structure turnstileRaw where
  Success : Bool
  Action : String
  ErrorCodes : List String
  deriving DecidableEq, Repr

/-- The method `(*Google).Verify` of a verifier with the given secret. -/
def Google.Verify (remote : Remote googleRaw) (secret : String) : Verifier :=
  fun token ip =>
    match remote.post googleEndpoint (requestForm secret token ip) with
    | .error err => .error err
    | .ok body =>
      match remote.decode body with
      | .error err => .error ("google decode error: " ++ err)
      | .ok raw =>
        .ok { Success := raw.Success, Action := raw.Action, Score := some raw.Score,
              ErrorCodes := raw.ErrorCodes }

/-- The method `(*Turnstile).Verify` of a verifier with the given secret. -/
def Turnstile.Verify (remote : Remote turnstileRaw) (secret : String) : Verifier :=
  fun token ip =>
    match remote.post turnstileEndpoint (requestForm secret token ip) with
    | .error err => .error err
    | .ok body =>
      match remote.decode body with
      | .error err => .error ("turnstile decode error: " ++ err)
      | .ok raw =>
        .ok { Success := raw.Success, Action := raw.Action, Score := none,
              ErrorCodes := raw.ErrorCodes }

/-! ## `service.go` -/

/-- The struct `VerificationResult`. -/
structure VerificationResult where
  Success : Bool
  Status : String
  Message : String
  deriving DecidableEq, Repr

/-- The struct `captchaService`. -/
structure captchaService where
  buildVerifier : String → Verifier

/-- The method `(*captchaService).verifierFor`. -/
def captchaService.verifierFor (s : captchaService) (w : World) (p : Policy) :
    Except String Verifier × List Event :=
  let secretKey := p.SecretKey
  match configGet w secretKey with
  | (.error err, t) => (.error ("failed to load secret '" ++ secretKey ++ "': " ++ err), t)
  | (.ok secret, t) => (.ok (s.buildVerifier secret), t ++ [Event.buildVerifier secret])

/-- The method `(*captchaService).Verify`: the result, the package variables of the
policy store after the call and the external calls made. -/
def captchaService.Verify (s : captchaService) (w : World) (c : Cache)
    (token ip expectedAction : String) : VerificationResult × Cache × List Event :=
  match Current w c with
  | (.error err, c, t) =>
    ({ Success := false, Status := "policy_error",
       Message := "failed to load policy: " ++ err }, c, t)
  | (.ok store, c, t) =>
    let (policyValue, ok) := store.PolicyFor expectedAction
    let t := if !ok then
        t ++ [Event.log ("[captcha] no policy override for '" ++ expectedAction ++
          "' — using default min_score=" ++ w.fmt2f policyValue.MinScore ++ "\n")]
      else t
    match s.verifierFor w policyValue with
    | (.error err, t') =>
      ({ Success := false, Status := "config_error",
         Message := "captcha secret error: " ++ err }, c, t ++ t')
    | (.ok v, t') =>
      let t := t ++ t' ++ [Event.verify token ip]
      match v token ip with
      | .error err =>
        ({ Success := false, Status := "verify_error",
           Message := "verify error: " ++ err }, c, t)
      | .ok res =>
        if !res.Success then
          ({ Success := false, Status := "success_failed",
             Message := "captcha provider marked challenge as failed" }, c, t)
        else if res.Action ≠ expectedAction then
          ({ Success := false, Status := "action_mismatch",
             Message := "captcha action mismatch: expected '" ++ expectedAction ++
               "', got '" ++ res.Action ++ "'" }, c, t)
        else
          match res.Score with
          | some score =>
            if score < policyValue.MinScore then
              ({ Success := false, Status := "score_too_low",
                 Message := "captcha score too low: " ++ w.fmt2f score ++ " < " ++
                   w.fmt2f policyValue.MinScore }, c, t)
            else
              ({ Success := true, Status := "verified",
                 Message := "captcha verification passed" }, c, t)
          | none =>
            ({ Success := true, Status := "verified",
               Message := "captcha verification passed" }, c, t)

/-! ## Auxiliary definitions for the statements -/

/-- The policy that one pass of the loop of `parseAndBuild` stores under the action
name: the fields of the fragment that are present (non-blank after trimming) laid over
`base`. -/
def overlay (base : Policy) (raw : rawPolicy) : Policy :=
  { MinScore := raw.MinScore.getD base.MinScore
    SiteKey := if TrimSpace raw.SiteKey ≠ "" then TrimSpace raw.SiteKey else base.SiteKey
    SecretKey :=
      if TrimSpace raw.SecretKey ≠ "" then TrimSpace raw.SecretKey else base.SecretKey
    Theme := if TrimSpace raw.Theme ≠ "" then TrimSpace raw.Theme else base.Theme
    Appearance :=
      if TrimSpace raw.Appearance ≠ "" then TrimSpace raw.Appearance else base.Appearance }

/-- The fragment `{}`: no field present. -/
def emptyFragment : rawPolicy :=
  { MinScore := none, SiteKey := "", SecretKey := "", Theme := "", Appearance := "" }

/-- The value of the variable `base` of `parseAndBuild` when the loop starts: the
trimmed fields of `global`, with `defaultMinScore` when `global.min_score` is absent. -/
def basePolicy (cfg : rawPolicyConfig) : Policy :=
  { MinScore := cfg.Global.MinScore.getD defaultMinScore
    SiteKey := TrimSpace cfg.Global.SiteKey
    SecretKey := TrimSpace cfg.Global.SecretKey
    Theme := TrimSpace cfg.Global.Theme
    Appearance := TrimSpace cfg.Global.Appearance }

/-! ## Concrete documents and worlds -/

/-- The document of the end-to-end examples:
`{"provider":"google","global":{"min_score":0.5,"site_key":"sk","secret_key":"SECRET"},
"actions":{"login":{}}}`. -/
def loginConfig : rawPolicyConfig :=
  { Provider := "google"
    Global := { MinScore := some (1 / 2), SiteKey := "sk", SecretKey := "SECRET",
                Theme := "", Appearance := "" }
    Actions := [("login", emptyFragment)] }

/-- A document without `global.min_score`, with an empty fragment for `login` and a
fragment that sets only `min_score` for `signup`. -/
def themedConfig : rawPolicyConfig :=
  { Provider := "turnstile"
    Global := { MinScore := none, SiteKey := " sk ", SecretKey := "SECRET",
                Theme := "dark", Appearance := "always" }
    Actions := [("login", emptyFragment),
                ("signup", { MinScore := some (7 / 10), SiteKey := "", SecretKey := "",
                             Theme := "", Appearance := "" })] }

/-- The store that `parseAndBuild` builds from `loginConfig`. -/
def loginStore : Store :=
  { global := { MinScore := 1 / 2, SiteKey := "sk", SecretKey := "SECRET",
                Theme := "", Appearance := "" }
    actions := [("login", { MinScore := 1 / 2, SiteKey := "sk", SecretKey := "SECRET",
                            Theme := "", Appearance := "" })]
    provider := "google" }

/-- The store that `parseAndBuild` builds from `themedConfig`. -/
def themedStore : Store :=
  { global := { MinScore := 1 / 2, SiteKey := "sk", SecretKey := "SECRET",
                Theme := "dark", Appearance := "always" }
    actions := [("signup", { MinScore := 7 / 10, SiteKey := "sk", SecretKey := "SECRET",
                             Theme := "dark", Appearance := "always" }),
                ("login", { MinScore := 1 / 2, SiteKey := "sk", SecretKey := "SECRET",
                            Theme := "dark", Appearance := "always" })]
    provider := "turnstile" }

/-- The document `loginConfig` with a provider of white space only. -/
def blankProviderConfig : rawPolicyConfig := { loginConfig with Provider := " \t" }

/-- The document `loginConfig` without any action. -/
def noActionsConfig : rawPolicyConfig := { loginConfig with Actions := [] }

/-- A document without `global.site_key` whose action has no `site_key` either. -/
def noSiteKeyConfig : rawPolicyConfig :=
  { Provider := "google"
    Global := { MinScore := none, SiteKey := "", SecretKey := "SECRET", Theme := "",
                Appearance := "" }
    Actions := [("login", emptyFragment)] }

/-- A decoder that yields the given document for the two bytes `{}` standing for the
file content, and fails on anything else. -/
def decodeAs (cfg : rawPolicyConfig) : List Nat → Except String rawPolicyConfig :=
  fun data => if data = [123, 125] then .ok cfg else .error "unexpected end of JSON input"

/-- The path of the policy document in the concrete worlds. -/
def policyFile : String := "/etc/captcha/policy.json"

/-- A process environment: `CAPTCHA_CONFIG` names the policy document, `SECRET` holds
the provider secret, every other variable is unset. -/
def sampleEnv : String → String := fun key =>
  if key = "CAPTCHA_CONFIG" then policyFile
  else if key = "SECRET" then "s3cr3t" else ""

/-- A world with the environment source over `getenv`, in which the policy document
exists with the modification time `modTime`, has the content `{}` and decodes to
`cfg`. -/
def sampleWorld (getenv : String → String) (cfg : rawPolicyConfig) (modTime : Time) :
    World :=
  { manager := .ok (EnvSource.Get getenv)
    stat := fun path =>
      if path = policyFile then .ok modTime else .error "no such file or directory"
    readFile := fun path =>
      if path = policyFile then .ok [123, 125] else .error "no such file or directory"
    unmarshal := decodeAs cfg
    fmt2f := fun _ => "0.50" }

/-- The package variables before the first call of `Current`. -/
def emptyCache : Cache :=
  { policies := none, policyPath := "", policyModTime := { instant := 0, loc := 0 } }

/-- The package variables after `loginConfig` was loaded from `policyFile` at the
instant 100. -/
def loginCache : Cache :=
  { policies := some loginStore, policyPath := policyFile,
    policyModTime := { instant := 100, loc := 0 } }

/-- The environment `sampleEnv` without the variable `SECRET`. -/
def noSecretEnv : String → String := fun key =>
  if key = "CAPTCHA_CONFIG" then policyFile else ""

/-- An environment in which no variable is set. -/
def unsetEnv : String → String := fun _ => ""

/-- The package variables after `loginConfig` was loaded from `policyFile` at the
instant 200. -/
def reloadedCache : Cache :=
  { policies := some loginStore, policyPath := policyFile,
    policyModTime := { instant := 200, loc := 0 } }

/-- The external calls of a cache hit on `policyFile`. -/
def hitTrace : List Event :=
  [Event.configGet "CAPTCHA_CONFIG", Event.stat policyFile, Event.stat policyFile]

/-- The external calls of a reload of `policyFile`. -/
def reloadTrace : List Event :=
  [Event.configGet "CAPTCHA_CONFIG", Event.stat policyFile, Event.stat policyFile,
    Event.readFile policyFile, Event.parse [123, 125]]

/-- The service that `NewCaptchaService` builds for the provider `google`. -/
def googleService (remote : Remote googleRaw) : captchaService :=
  { buildVerifier := fun secret => Google.Verify remote secret }

/-- The service that `NewCaptchaService` builds for the provider `turnstile`. -/
def turnstileService (remote : Remote turnstileRaw) : captchaService :=
  { buildVerifier := fun secret => Turnstile.Verify remote secret }

/-- A provider that answers every request with a body decoding to `raw`. -/
def replies {Raw : Type} (raw : Raw) : Remote Raw :=
  { post := fun _ _ => .ok [123, 125], decode := fun _ => .ok raw }

/-- A provider that cannot be reached. -/
def unreachable (Raw : Type) : Remote Raw :=
  { post := fun _ _ => .error "context deadline exceeded",
    decode := fun _ => .error "EOF" }

/-- A Google answer: failed, for the action `search`, with the score 0.1. -/
def failedSearch : googleRaw :=
  { Success := false, Score := 1 / 10, Action := "search", ErrorCodes := [] }

/-- A Google answer: passed, for the action `search`, with the score 0.1. -/
def passedSearch : googleRaw :=
  { Success := true, Score := 1 / 10, Action := "search", ErrorCodes := [] }

/-- A Google answer: passed, for the action `login`, with the given score. -/
def passedLogin (score : ℚ) : googleRaw :=
  { Success := true, Score := score, Action := "login", ErrorCodes := [] }

/-- A Turnstile answer: passed, with the given action. -/
def passedTurnstile (action : String) : turnstileRaw :=
  { Success := true, Action := action, ErrorCodes := [] }

/-- The world of the examples: `sampleEnv`, the given document, modified at the
instant 100. -/
def worldOf (cfg : rawPolicyConfig) : World :=
  sampleWorld sampleEnv cfg { instant := 100, loc := 0 }

/-- A document without `global.site_key` in which every action has a `site_key` of its
own:
`{"provider":"google","global":{"secret_key":"SECRET"},
"actions":{"login":{"site_key":"sk-login"},"search":{"site_key":"sk-search"}}}`. -/
def ownSiteKeysConfig : rawPolicyConfig :=
  { Provider := "google"
    Global := { MinScore := none, SiteKey := "", SecretKey := "SECRET", Theme := "",
                Appearance := "" }
    Actions := [("login", { MinScore := none, SiteKey := "sk-login", SecretKey := "",
                            Theme := "", Appearance := "" }),
                ("search", { MinScore := none, SiteKey := "sk-search", SecretKey := "",
                             Theme := "", Appearance := "" })] }

/-- The document `ownSiteKeysConfig` with the global site key `sk` added. -/
def bothSiteKeysConfig : rawPolicyConfig :=
  { ownSiteKeysConfig with
    Global := { MinScore := none, SiteKey := "sk", SecretKey := "SECRET", Theme := "",
                Appearance := "" } }

/-! ## Lemmas -/

theorem dropWhile_isSpace_of_all (l : List Char) (h : ∀ ch ∈ l, isSpace ch = true) :
    l.dropWhile isSpace = [] := by
  induction l with
  | nil => rfl
  | cons a l ih =>
    have ha : isSpace a = true := h a (List.mem_cons_self _ _)
    simp only [List.dropWhile, ha]
    exact ih (fun ch hch => h ch (List.mem_cons_of_mem _ hch))

theorem all_of_dropWhile_isSpace (l : List Char) (h : l.dropWhile isSpace = []) :
    ∀ ch ∈ l, isSpace ch = true := by
  induction l with
  | nil => intro ch hch; cases hch
  | cons a l ih =>
    cases ha : isSpace a with
    | false => simp [List.dropWhile, ha] at h
    | true =>
      simp only [List.dropWhile, ha] at h
      intro ch hch
      rcases List.mem_cons.mp hch with rfl | hch
      · exact ha
      · exact ih h ch hch

theorem dropWhile_isSpace_head (l : List Char) (a : Char) (r : List Char)
    (h : l.dropWhile isSpace = a :: r) : isSpace a = false := by
  induction l with
  | nil => simp [List.dropWhile] at h
  | cons b l ih =>
    cases hb : isSpace b with
    | false =>
      simp only [List.dropWhile, hb] at h
      cases h
      exact hb
    | true =>
      simp only [List.dropWhile, hb] at h
      exact ih h

/-- A string trims to the empty string exactly when all its characters are white
space (in particular when it is empty). -/
theorem TrimSpace_eq_empty_iff (s : String) :
    TrimSpace s = "" ↔ ∀ ch ∈ s.data, isSpace ch = true := by
  constructor
  · intro h
    have h1 : ((s.data.dropWhile isSpace).reverse.dropWhile isSpace).reverse = [] := by
      have := congrArg String.data h
      simpa [TrimSpace] using this
    have h2 : (s.data.dropWhile isSpace).reverse.dropWhile isSpace = [] :=
      List.reverse_eq_nil_iff.mp h1
    have h3 := all_of_dropWhile_isSpace _ h2
    cases hd : s.data.dropWhile isSpace with
    | nil => exact all_of_dropWhile_isSpace _ hd
    | cons a r =>
      have ha := dropWhile_isSpace_head _ _ _ hd
      have : isSpace a = true := h3 a (by simp [hd])
      rw [ha] at this
      cases this
  · intro h
    have h1 := dropWhile_isSpace_of_all _ h
    simp [TrimSpace, h1, List.dropWhile]

theorem GoMap.get?_set_self {V : Type} (m : GoMap V) (k : String) (v : V) :
    (m.set k v).get? k = some v := by
  simp [GoMap.set, GoMap.get?, List.lookup]

theorem GoMap.lookup_filter_ne {V : Type} (m : GoMap V) (k k2 : String) (h : k2 ≠ k) :
    List.lookup k2 (m.filter (fun kv => kv.1 != k)) = List.lookup k2 m := by
  induction m with
  | nil => rfl
  | cons kv m ih =>
    obtain ⟨a, b⟩ := kv
    by_cases hak : a = k
    · subst hak
      have h1 : (k2 == a) = false := by simpa using h
      simp [List.filter, List.lookup, h1, ih]
    · have h1 : (a != k) = true := by simpa using hak
      simp only [List.filter, h1, List.lookup]
      rw [ih]

theorem GoMap.get?_set_ne {V : Type} (m : GoMap V) (k k2 : String) (v : V) (h : k2 ≠ k) :
    (m.set k v).get? k2 = m.get? k2 := by
  have h1 : (k2 == k) = false := by simpa using h
  simp only [GoMap.set, GoMap.get?, List.lookup, h1]
  exact GoMap.lookup_filter_ne m k k2 h

theorem GoMap.get?_eq_none_iff {V : Type} (m : GoMap V) (k : String) :
    m.get? k = none ↔ k ∉ m.keys := by
  induction m with
  | nil => simp [GoMap.get?, GoMap.keys, List.lookup]
  | cons kv m ih =>
    obtain ⟨a, b⟩ := kv
    by_cases hak : k = a
    · subst hak
      simp [GoMap.get?, GoMap.keys, List.lookup]
    · have h1 : (k == a) = false := by simpa using hak
      simp only [GoMap.get?, GoMap.keys, List.lookup, h1, List.map_cons, List.mem_cons,
        hak, false_or]
      exact ih

theorem GoMap.mem_of_get? {V : Type} (m : GoMap V) (k : String) (v : V)
    (h : m.get? k = some v) : (k, v) ∈ m := by
  induction m with
  | nil => simp [GoMap.get?, List.lookup] at h
  | cons kv m ih =>
    obtain ⟨a, b⟩ := kv
    by_cases hak : k = a
    · subst hak
      simp [GoMap.get?, List.lookup] at h
      subst h
      exact List.mem_cons_self _ _
    · have h1 : (k == a) = false := by simpa using hak
      simp only [GoMap.get?, List.lookup, h1] at h
      exact List.mem_cons_of_mem _ (ih h)

/-- One pass of the loop of `parseAndBuild`, with the stored policy written as
`overlay`. -/
theorem actionsLoop_cons (base : Policy) (name : String) (raw : rawPolicy)
    (rest : List (String × rawPolicy)) (acc : GoMap Policy) (miss : Bool) :
    actionsLoop base ((name, raw) :: rest) acc miss =
      if TrimSpace name = "" then .error "captcha policy action name cannot be empty"
      else actionsLoop base rest (acc.set name (overlay base raw))
        (if TrimSpace raw.SiteKey ≠ "" then miss
          else if base.SiteKey = "" then true else miss) := by
  obtain ⟨ms, sk, sec, th, ap⟩ := raw
  cases ms <;> simp only [actionsLoop, overlay, Option.getD] <;> split <;> try rfl
  all_goals (split_ifs <;> rfl)

/-- The flag `missingSiteKey` is never reset by the loop. -/
theorem actionsLoop_missing_mono (base : Policy) (l : List (String × rawPolicy)) :
    ∀ (acc : GoMap Policy) (miss : Bool) (acts : GoMap Policy) (miss2 : Bool),
      actionsLoop base l acc miss = .ok (acts, miss2) → miss = true → miss2 = true := by
  induction l with
  | nil =>
    intro acc miss acts miss2 h hm
    simp only [actionsLoop, Except.ok.injEq, Prod.mk.injEq] at h
    rw [← h.2]; exact hm
  | cons kv l ih =>
    obtain ⟨name, raw⟩ := kv
    intro acc miss acts miss2 h hm
    rw [actionsLoop_cons] at h
    split at h
    · cases h
    · refine ih _ _ _ _ h ?_
      subst hm
      split_ifs <;> rfl

/-- Every entry of the map built by the loop was there before or is the overlay of a
fragment of the document under the same name. -/
theorem actionsLoop_mem (base : Policy) (l : List (String × rawPolicy)) :
    ∀ (acc : GoMap Policy) (miss : Bool) (acts : GoMap Policy) (miss2 : Bool),
      actionsLoop base l acc miss = .ok (acts, miss2) →
      ∀ kv ∈ acts, kv ∈ acc ∨ ∃ raw, (kv.1, raw) ∈ l ∧ kv.2 = overlay base raw := by
  induction l with
  | nil =>
    intro acc miss acts miss2 h kv hkv
    simp only [actionsLoop, Except.ok.injEq, Prod.mk.injEq] at h
    rw [← h.1] at hkv
    exact Or.inl hkv
  | cons e l ih =>
    obtain ⟨name, raw⟩ := e
    intro acc miss acts miss2 h kv hkv
    rw [actionsLoop_cons] at h
    split at h
    · cases h
    · rcases ih _ _ _ _ h kv hkv with hacc | ⟨r, hr, he⟩
      · simp only [GoMap.set, List.mem_cons, List.mem_filter] at hacc
        rcases hacc with rfl | hacc
        · exact Or.inr ⟨raw, List.mem_cons_self _ _, rfl⟩
        · exact Or.inl hacc.1
      · exact Or.inr ⟨r, List.mem_cons_of_mem _ hr, he⟩

/-- With distinct action names, the map built by the loop holds the overlay of each
fragment under its name and is unchanged at every other key. -/
theorem actionsLoop_get (base : Policy) (l : List (String × rawPolicy)) :
    ∀ (acc : GoMap Policy) (miss : Bool) (acts : GoMap Policy) (miss2 : Bool),
      (GoMap.keys l).Nodup →
      actionsLoop base l acc miss = .ok (acts, miss2) →
      (∀ name raw, (name, raw) ∈ l → acts.get? name = some (overlay base raw)) ∧
      (∀ name, name ∉ GoMap.keys l → acts.get? name = acc.get? name) := by
  induction l with
  | nil =>
    intro acc miss acts miss2 _ h
    simp only [actionsLoop, Except.ok.injEq, Prod.mk.injEq] at h
    exact ⟨fun name raw hm => (by cases hm), fun name _ => (by rw [h.1])⟩
  | cons e l ih =>
    obtain ⟨k, r⟩ := e
    intro acc miss acts miss2 hnd h
    rw [actionsLoop_cons] at h
    simp only [GoMap.keys, List.map_cons, List.nodup_cons] at hnd
    split at h
    · cases h
    · obtain ⟨ih1, ih2⟩ := ih _ _ _ _ hnd.2 h
      refine ⟨?_, ?_⟩
      · intro name raw hm
        rcases List.mem_cons.mp hm with heq | hm
        · have hp := Prod.mk.inj heq
          rw [hp.1, hp.2, ih2 k hnd.1, GoMap.get?_set_self]
        · exact ih1 name raw hm
      · intro name hname
        simp only [GoMap.keys, List.map_cons, List.mem_cons, not_or] at hname
        rw [ih2 name hname.2, GoMap.get?_set_ne _ _ _ _ hname.1]

/-- The keys of the map built by the loop are the keys it had before and the action
names of the document. -/
theorem actionsLoop_keys (base : Policy) (l : List (String × rawPolicy)) :
    ∀ (acc : GoMap Policy) (miss : Bool) (acts : GoMap Policy) (miss2 : Bool),
      actionsLoop base l acc miss = .ok (acts, miss2) →
      ∀ name, name ∈ acts.keys ↔ name ∈ acc.keys ∨ name ∈ GoMap.keys l := by
  induction l with
  | nil =>
    intro acc miss acts miss2 h name
    simp only [actionsLoop, Except.ok.injEq, Prod.mk.injEq] at h
    simp [← h.1, GoMap.keys]
  | cons e l ih =>
    obtain ⟨k, r⟩ := e
    intro acc miss acts miss2 h name
    rw [actionsLoop_cons] at h
    split at h
    · cases h
    · rw [ih _ _ _ _ h name]
      simp only [GoMap.keys, GoMap.set, List.map_cons, List.mem_cons, List.mem_map,
        List.mem_filter, Prod.exists, exists_and_right, exists_eq_right, bne_iff_ne, ne_eq]
      by_cases hk : name = k <;> simp [hk]

/-- What an accepted document tells: the checks passed, the loop ended without error
and without a missing site key, and the store holds `base` and the map of the loop. -/
theorem parseAndBuild_ok (unmarshal : List Nat → Except String rawPolicyConfig)
    (data : List Nat) (cfg : rawPolicyConfig) (store : Store)
    (hcfg : unmarshal data = .ok cfg) (h : parseAndBuild unmarshal data = .ok store) :
    TrimSpace cfg.Provider ≠ "" ∧ cfg.Actions ≠ [] ∧ (basePolicy cfg).SiteKey ≠ "" ∧
      store.global = basePolicy cfg ∧ store.provider = TrimSpace cfg.Provider ∧
      actionsLoop (basePolicy cfg) cfg.Actions [] false = .ok (store.actions, false) := by
  have hb : (match cfg.Global.MinScore with
      | some m => { ({ MinScore := defaultMinScore
                       SiteKey := TrimSpace cfg.Global.SiteKey
                       SecretKey := TrimSpace cfg.Global.SecretKey
                       Theme := TrimSpace cfg.Global.Theme
                       Appearance := TrimSpace cfg.Global.Appearance } : Policy) with
                    MinScore := m }
      | none => { MinScore := defaultMinScore
                  SiteKey := TrimSpace cfg.Global.SiteKey
                  SecretKey := TrimSpace cfg.Global.SecretKey
                  Theme := TrimSpace cfg.Global.Theme
                  Appearance := TrimSpace cfg.Global.Appearance }) = basePolicy cfg := by
    cases hm : cfg.Global.MinScore <;> simp [basePolicy, hm]
  simp only [parseAndBuild, hcfg, hb] at h
  split at h
  · cases h
  · rename_i hprov
    split at h
    · cases h
    · rename_i hlen
      split at h
      · cases h
      · rename_i acts miss hloop
        split at h
        · cases h
        · rename_i hmiss
          simp only [Except.ok.injEq] at h
          subst h
          have hmiss2 : miss = false := by simpa using hmiss
          subst hmiss2
          have hsk : (basePolicy cfg).SiteKey ≠ "" := by
            intro hempty
            have := actionsLoop_missing_mono _ _ _ _ _ _ hloop (by simp [hempty])
            cases this
          have hdec : decide ((basePolicy cfg).SiteKey = "") = false := by simp [hsk]
          rw [hdec] at hloop
          refine ⟨hprov, ?_, hsk, rfl, rfl, hloop⟩
          intro hnil
          exact hlen (by simp [hnil])


/-! ## The policy store: merge, validation, lookup -/

/-- C3 (merge law of `parseAndBuild`). For every accepted document (its action names
being distinct, as the keys of a map are): an action whose fragment sets only
`min_score` gets a policy with that `MinScore` and with the `SiteKey`, `SecretKey`,
`Theme` and `Appearance` of the store's global policy; an action with an empty fragment
gets the global policy itself; and the global `MinScore` is 0.5 when `global.min_score`
is absent (and the given value when it is present). -/
theorem C3_merge_law (unmarshal : List Nat → Except String rawPolicyConfig)
    (data : List Nat) (cfg : rawPolicyConfig) (store : Store)
    (hcfg : unmarshal data = .ok cfg)
    (hok : parseAndBuild unmarshal data = .ok store)
    (hnd : cfg.Actions.keys.Nodup) :
    (∀ (name : String) (m : ℚ),
      (name, ({ MinScore := some m, SiteKey := "", SecretKey := "", Theme := "",
                Appearance := "" } : rawPolicy)) ∈ cfg.Actions →
      ∃ p, store.PolicyFor name = (p, true) ∧ p.MinScore = m ∧
        p.SiteKey = store.global.SiteKey ∧ p.SecretKey = store.global.SecretKey ∧
        p.Theme = store.global.Theme ∧ p.Appearance = store.global.Appearance) ∧
    (∀ name : String, (name, emptyFragment) ∈ cfg.Actions →
      store.PolicyFor name = (store.global, true)) ∧
    (cfg.Global.MinScore = none → store.global.MinScore = 1 / 2) ∧
    (∀ g : ℚ, cfg.Global.MinScore = some g → store.global.MinScore = g) := by
  obtain ⟨_, _, _, hglobal, _, hloop⟩ := parseAndBuild_ok unmarshal data cfg store hcfg hok
  have hget := (actionsLoop_get _ _ _ _ _ _ hnd hloop).1
  have hempty : TrimSpace "" = "" := rfl
  refine ⟨?_, ?_, ?_, ?_⟩
  · intro name m hmem
    have hp := hget name _ hmem
    have hpf : store.PolicyFor name = ((store.PolicyFor name).1, true) := by
      simp only [Store.PolicyFor, hp]
    have hfst : (store.PolicyFor name).1 = overlay (basePolicy cfg)
        ⟨some m, "", "", "", ""⟩ := by
      simp only [Store.PolicyFor, hp]
    refine ⟨(store.PolicyFor name).1, hpf, ?_⟩
    rw [hfst]
    simp [overlay, hempty, hglobal]
  · intro name hmem
    simp only [Store.PolicyFor, hget name _ hmem, hglobal]
    simp [overlay, emptyFragment, hempty]
  · intro hnone
    simp [hglobal, basePolicy, hnone, defaultMinScore]
  · intro g hg
    simp [hglobal, basePolicy, hg]

/-- The merge law at the document `themedConfig`: `signup` overrides only the minimum
score, `login` is the global policy, whose minimum score is the default. -/
theorem C3_merge_law_witness :
    (∃ p, themedStore.PolicyFor "signup" = (p, true) ∧ p.MinScore = 7 / 10 ∧
      p.SiteKey = themedStore.global.SiteKey ∧
      p.SecretKey = themedStore.global.SecretKey ∧
      p.Theme = themedStore.global.Theme ∧
      p.Appearance = themedStore.global.Appearance) ∧
    themedStore.PolicyFor "login" = (themedStore.global, true) ∧
    themedStore.global.MinScore = 1 / 2 :=
  have h := C3_merge_law (decodeAs themedConfig) [123, 125] themedConfig themedStore
    rfl rfl (by decide)
  ⟨h.1 "signup" (7 / 10) (by simp [themedConfig]),
    h.2.1 "login" (by simp [themedConfig]), h.2.2.1 rfl⟩

/-- C4 (site-key invariant). Whenever `parseAndBuild` succeeds, the global policy of
the store has a non-empty `SiteKey`, so has every policy stored in its action map, every
action name of the document has such a policy, and `PolicyFor` returns a policy with a
non-empty `SiteKey` for every action string. -/
theorem C4_site_key_invariant (unmarshal : List Nat → Except String rawPolicyConfig)
    (data : List Nat) (store : Store)
    (hok : parseAndBuild unmarshal data = .ok store) :
    store.global.SiteKey ≠ "" ∧
    (∀ (name : String) (p : Policy), store.actions.get? name = some p → p.SiteKey ≠ "") ∧
    (∀ cfg : rawPolicyConfig, unmarshal data = .ok cfg → ∀ name ∈ cfg.Actions.keys,
      ∃ p, store.actions.get? name = some p ∧ p.SiteKey ≠ "") ∧
    (∀ action : String, (store.PolicyFor action).1.SiteKey ≠ "") := by
  cases hcfg : unmarshal data with
  | error err => simp [parseAndBuild, hcfg] at hok
  | ok cfg =>
    obtain ⟨_, _, hsk, hglobal, _, hloop⟩ :=
      parseAndBuild_ok unmarshal data cfg store hcfg hok
    have hover : ∀ raw : rawPolicy, (overlay (basePolicy cfg) raw).SiteKey ≠ "" := by
      intro raw
      simp only [overlay]
      split_ifs with h1
      · exact h1
      · exact hsk
    have hstored : ∀ (name : String) (p : Policy),
        store.actions.get? name = some p → p.SiteKey ≠ "" := by
      intro name p hp
      have hmem := GoMap.mem_of_get? _ _ _ hp
      rcases actionsLoop_mem _ _ _ _ _ _ hloop _ hmem with hnil | ⟨raw, _, hraw⟩
      · cases hnil
      · simp only at hraw
        rw [hraw]
        exact hover raw
    refine ⟨by rw [hglobal]; exact hsk, hstored, ?_, ?_⟩
    · intro cfg2 hcfg2 name hname
      cases hcfg2
      have hkey : name ∈ store.actions.keys :=
        (actionsLoop_keys _ _ _ _ _ _ hloop name).mpr (Or.inr hname)
      cases hp : store.actions.get? name with
      | none => exact absurd hkey ((GoMap.get?_eq_none_iff _ _).mp hp)
      | some p => exact ⟨p, rfl, hstored name p hp⟩
    · intro action
      simp only [Store.PolicyFor]
      cases hp : store.actions.get? action with
      | none => simp only [hglobal]; exact hsk
      | some p => exact hstored action p hp

/-- The site-key invariant at the document `themedConfig`. -/
theorem C4_site_key_invariant_witness :
    themedStore.global.SiteKey ≠ "" ∧
    (themedStore.PolicyFor "signup").1.SiteKey ≠ "" ∧
    (themedStore.PolicyFor "no-such-action").1.SiteKey ≠ "" :=
  have h := C4_site_key_invariant (decodeAs themedConfig) [123, 125] themedStore rfl
  ⟨h.1, h.2.2.2 "signup", h.2.2.2 "no-such-action"⟩

/-- C5 (validation in `parseAndBuild`). A decoded document whose provider is empty or
consists of white space only is rejected; a document with no action is rejected; a
document whose `global.site_key` is empty and in which some action has an empty
`site_key` is rejected. Rejected means: an error is returned, no store. -/
theorem C5_validation (unmarshal : List Nat → Except String rawPolicyConfig)
    (data : List Nat) (cfg : rawPolicyConfig) (hcfg : unmarshal data = .ok cfg) :
    ((∀ ch ∈ cfg.Provider.data, isSpace ch = true) →
      parseAndBuild unmarshal data = .error "captcha policy requires provider") ∧
    (cfg.Actions = [] → ∃ err, parseAndBuild unmarshal data = .error err) ∧
    (cfg.Global.SiteKey = "" → (∃ kv ∈ cfg.Actions, kv.2.SiteKey = "") →
      ∃ err, parseAndBuild unmarshal data = .error err) := by
  refine ⟨?_, ?_, ?_⟩
  · intro hblank
    have h := (TrimSpace_eq_empty_iff cfg.Provider).mpr hblank
    simp [parseAndBuild, hcfg, h]
  · intro hnil
    cases hres : parseAndBuild unmarshal data with
    | error err => exact ⟨err, rfl⟩
    | ok store => exact absurd hnil (parseAndBuild_ok unmarshal data cfg store hcfg hres).2.1
  · intro hglobal _
    cases hres : parseAndBuild unmarshal data with
    | error err => exact ⟨err, rfl⟩
    | ok store =>
      have hsk := (parseAndBuild_ok unmarshal data cfg store hcfg hres).2.2.1
      have : (basePolicy cfg).SiteKey = "" := by
        simp only [basePolicy, hglobal]
        rfl
      exact absurd this hsk

/-- The three rejections at concrete documents: a provider of a blank and a tab, no
action, and neither a global nor a per-action site key. -/
theorem C5_validation_witness :
    parseAndBuild (decodeAs blankProviderConfig) [123, 125] =
      .error "captcha policy requires provider" ∧
    (∃ err, parseAndBuild (decodeAs noActionsConfig) [123, 125] = .error err) ∧
    (∃ err, parseAndBuild (decodeAs noSiteKeyConfig) [123, 125] = .error err) :=
  ⟨(C5_validation (decodeAs blankProviderConfig) [123, 125] blankProviderConfig rfl).1
      (by decide),
    (C5_validation (decodeAs noActionsConfig) [123, 125] noActionsConfig rfl).2.1 rfl,
    (C5_validation (decodeAs noSiteKeyConfig) [123, 125] noSiteKeyConfig rfl).2.2 rfl
      ⟨("login", emptyFragment), by simp [noSiteKeyConfig], rfl⟩⟩

/-- C6 (`Store.PolicyFor` never fails). `PolicyFor` is a total function; for every
store and action string it returns the stored per-action policy with `true` when the
action is a key of the action map, and the global policy with `false` otherwise. For a
store built by `parseAndBuild` the keys of the action map are exactly the action names
of the document, the global policy is the merged global policy, and (action names
being distinct) the per-action policy is the overlay of the action's fragment. -/
theorem C6_policyFor_total (ps : Store) (action : String) :
    (action ∈ ps.actions.keys →
      ∃ p, ps.actions.get? action = some p ∧ ps.PolicyFor action = (p, true)) ∧
    (action ∉ ps.actions.keys → ps.PolicyFor action = (ps.global, false)) ∧
    (∀ (unmarshal : List Nat → Except String rawPolicyConfig) (data : List Nat)
      (cfg : rawPolicyConfig),
      unmarshal data = .ok cfg → parseAndBuild unmarshal data = .ok ps →
        (action ∈ ps.actions.keys ↔ action ∈ cfg.Actions.keys) ∧
        ps.global = basePolicy cfg ∧
        (cfg.Actions.keys.Nodup → ∀ raw, (action, raw) ∈ cfg.Actions →
          ps.PolicyFor action = (overlay (basePolicy cfg) raw, true))) := by
  refine ⟨?_, ?_, ?_⟩
  · intro hkey
    cases hp : ps.actions.get? action with
    | none => exact absurd hkey ((GoMap.get?_eq_none_iff _ _).mp hp)
    | some p => exact ⟨p, rfl, by simp only [Store.PolicyFor, hp]⟩
  · intro hkey
    have hp := (GoMap.get?_eq_none_iff _ _).mpr hkey
    simp only [Store.PolicyFor, hp]
  · intro unmarshal data cfg hcfg hok
    obtain ⟨_, _, _, hglobal, _, hloop⟩ := parseAndBuild_ok unmarshal data cfg ps hcfg hok
    refine ⟨?_, hglobal, ?_⟩
    · rw [actionsLoop_keys _ _ _ _ _ _ hloop action]
      simp [GoMap.keys]
    · intro hnd raw hmem
      have hp := (actionsLoop_get _ _ _ _ _ _ hnd hloop).1 action raw hmem
      simp only [Store.PolicyFor, hp]

/-- The lookup at the store of `themedConfig`: a declared action and an undeclared
one. -/
theorem C6_policyFor_total_witness :
    (∃ p, themedStore.actions.get? "signup" = some p ∧
      themedStore.PolicyFor "signup" = (p, true)) ∧
    themedStore.PolicyFor "checkout" = (themedStore.global, false) ∧
    (("checkout" ∈ themedStore.actions.keys ↔ "checkout" ∈ themedConfig.Actions.keys) ∧
      themedStore.global = basePolicy themedConfig ∧
      (themedConfig.Actions.keys.Nodup → ∀ raw, ("checkout", raw) ∈ themedConfig.Actions →
        themedStore.PolicyFor "checkout" = (overlay (basePolicy themedConfig) raw, true))) :=
  ⟨(C6_policyFor_total themedStore "signup").1 (by decide),
    (C6_policyFor_total themedStore "checkout").2.1 (by decide),
    (C6_policyFor_total themedStore "checkout").2.2 (decodeAs themedConfig) [123, 125]
      themedConfig rfl rfl⟩

/-! ## The cache of `Current` -/

/-- When `resolvePolicyPath` succeeds it has looked up `CAPTCHA_CONFIG` and stat'ed the
path it returns, and nothing else; and the file at that path can be stat'ed. -/
theorem resolvePolicyPath_ok (w : World) (path : String) (t : List Event)
    (h : resolvePolicyPath w = (.ok path, t)) :
    t = [Event.configGet "CAPTCHA_CONFIG", Event.stat path] ∧
      ∃ modTime, w.stat path = .ok modTime := by
  unfold resolvePolicyPath configGet at h
  cases hm : w.manager with
  | error err => simp [hm] at h
  | ok mgr =>
    simp only [hm] at h
    cases hg : mgr "CAPTCHA_CONFIG" with
    | error err => simp [hg] at h
    | ok val =>
      simp only [hg] at h
      by_cases hblank : TrimSpace val = ""
      · simp [hblank] at h
      · simp only [hblank, if_false] at h
        cases hs : w.stat (TrimSpace val) with
        | error err => simp [hs] at h
        | ok modTime =>
          simp only [hs, Prod.mk.injEq, Except.ok.injEq] at h
          rw [← h.1, ← h.2]
          exact ⟨rfl, modTime, hs⟩

/-- `Time.Equal` is reflexive. -/
theorem Time.Equal_self (t : Time) : t.Equal t = true := by
  simp [Time.Equal]

/-- C7 (cache decision of `Current`). With a cached store for the resolved path: when
the modification time of the file equals the cached one, `Current` returns the cached
store, leaves the package variables unchanged and only looks up the path and stats the
file (no read, no parse); when the modification time differs, whatever the content,
`Current` reads and parses the file, and if the document is accepted (as a
byte-identical one is) the new store, path and time are installed and the following
call in the same world is a cache hit that neither reads nor parses. -/
theorem C7_cache_decision (w : World) (c : Cache) (cached : Store) (path : String)
    (t : List Event) (modTime : Time)
    (hcached : c.policies = some cached)
    (hpath : resolvePolicyPath w = (.ok path, t))
    (hstat : w.stat path = .ok modTime)
    (hsame : path = c.policyPath) :
    (modTime.Equal c.policyModTime = true →
      Current w c = (.ok cached, c,
        [Event.configGet "CAPTCHA_CONFIG", Event.stat path, Event.stat path])) ∧
    (modTime.Equal c.policyModTime = false → ∀ data, w.readFile path = .ok data →
      (Current w c).2.2 = [Event.configGet "CAPTCHA_CONFIG", Event.stat path,
        Event.stat path, Event.readFile path, Event.parse data] ∧
      ∀ store, parseAndBuild w.unmarshal data = .ok store →
        Current w c =
          (.ok store, { policies := some store, policyPath := path, policyModTime := modTime },
            [Event.configGet "CAPTCHA_CONFIG", Event.stat path, Event.stat path,
              Event.readFile path, Event.parse data]) ∧
        Current w { policies := some store, policyPath := path, policyModTime := modTime } =
          (.ok store, { policies := some store, policyPath := path, policyModTime := modTime },
            [Event.configGet "CAPTCHA_CONFIG", Event.stat path, Event.stat path])) := by
  have ht := (resolvePolicyPath_ok w path t hpath).1
  subst ht
  refine ⟨?_, ?_⟩
  · intro heq
    simp [Current, hpath, hstat, hcached, ← hsame, heq]
  · intro hne data hread
    refine ⟨?_, ?_⟩
    · cases hp : parseAndBuild w.unmarshal data <;>
        simp [Current, hpath, hstat, hcached, ← hsame, hne, hread, hp]
    · intro store hp
      refine ⟨?_, ?_⟩
      · simp [Current, hpath, hstat, hcached, ← hsame, hne, hread, hp]
      · simp [Current, hpath, hstat, Time.Equal_self]

/-- C8 (a failed reload is atomic). Whenever `Current` returns an error, the package
variables are what they were before the call, and the next call in the same world
returns the same error after the same external calls; in particular, when the file can
be read but its document is rejected, the next call reads and parses it again and
fails with the error of `parseAndBuild`. -/
theorem C8_failed_reload_atomic (w : World) (c c2 : Cache) (err : String)
    (t : List Event) (h : Current w c = (.error err, c2, t)) :
    c2 = c ∧ Current w c2 = (.error err, c, t) ∧
    (∀ (path : String) (t0 : List Event) (data : List Nat) (perr : String),
      resolvePolicyPath w = (.ok path, t0) → w.readFile path = .ok data →
      parseAndBuild w.unmarshal data = .error perr →
      Current w c2 = (.error perr, c,
        [Event.configGet "CAPTCHA_CONFIG", Event.stat path, Event.stat path,
          Event.readFile path, Event.parse data])) := by
  have hc : c2 = c := by
    unfold Current at h
    split at h
    · simp only [Prod.mk.injEq] at h; exact h.2.1.symm
    · split at h
      · simp only [Prod.mk.injEq] at h; exact h.2.1.symm
      · simp only at h
        split at h
        · simp at h
        · split at h
          · simp only [Prod.mk.injEq] at h; exact h.2.1.symm
          · split at h
            · simp only [Prod.mk.injEq] at h; exact h.2.1.symm
            · simp at h
  subst hc
  refine ⟨rfl, h, ?_⟩
  intro path t0 data perr hpath hread hparse
  obtain ⟨ht, modTime, hstat⟩ := resolvePolicyPath_ok w path t0 hpath
  subst ht
  unfold Current at h ⊢
  simp only [hpath, hstat] at h ⊢
  split at h
  · simp at h
  · rename_i hhit
    simp only [hhit, hread, hparse]
    rfl

/-- The cache decision in a concrete world: the file is unchanged at the instant 100 (a
hit); then its time is 200 with the same bytes (one reload, then a hit). -/
theorem C7_cache_decision_witness :
    Current (sampleWorld sampleEnv loginConfig { instant := 100, loc := 0 }) loginCache =
      (.ok loginStore, loginCache, hitTrace) ∧
    Current (sampleWorld sampleEnv loginConfig { instant := 200, loc := 0 }) loginCache =
      (.ok loginStore, reloadedCache, reloadTrace) ∧
    Current (sampleWorld sampleEnv loginConfig { instant := 200, loc := 0 }) reloadedCache =
      (.ok loginStore, reloadedCache, hitTrace) :=
  ⟨(C7_cache_decision (sampleWorld sampleEnv loginConfig { instant := 100, loc := 0 })
      loginCache loginStore policyFile _ { instant := 100, loc := 0 } rfl rfl rfl rfl).1 rfl,
    ((C7_cache_decision (sampleWorld sampleEnv loginConfig { instant := 200, loc := 0 })
      loginCache loginStore policyFile _ { instant := 200, loc := 0 } rfl rfl rfl rfl).2 rfl
      [123, 125] rfl).2 loginStore rfl⟩

/-- A failed reload in concrete worlds: without `CAPTCHA_CONFIG` the call fails and
fails again; with a changed file whose document has no site key the call fails, keeps
the cache of `loginConfig`, and the next call reads and parses the file again. -/
theorem C8_failed_reload_atomic_witness :
    Current (sampleWorld unsetEnv loginConfig { instant := 100, loc := 0 }) loginCache =
      (.error "CAPTCHA_CONFIG must be set", loginCache,
        [Event.configGet "CAPTCHA_CONFIG"]) ∧
    Current (sampleWorld sampleEnv noSiteKeyConfig { instant := 200, loc := 0 }) loginCache =
      (.error "captcha policy requires a site_key in global or for every action",
        loginCache, reloadTrace) :=
  ⟨(C8_failed_reload_atomic
      (sampleWorld unsetEnv loginConfig { instant := 100, loc := 0 }) loginCache loginCache
      "CAPTCHA_CONFIG must be set" [Event.configGet "CAPTCHA_CONFIG"] rfl).2.1,
    (C8_failed_reload_atomic
      (sampleWorld sampleEnv noSiteKeyConfig { instant := 200, loc := 0 }) loginCache
      loginCache "captcha policy requires a site_key in global or for every action"
      reloadTrace rfl).2.2 policyFile _ [123, 125] _ rfl rfl rfl⟩

/-! ## The verification service -/

/-- The function `config.Get` makes one call, recorded under its key. -/
theorem configGet_trace (w : World) (key : String) :
    configGet w key = ((configGet w key).1, [Event.configGet key]) := by
  unfold configGet
  cases w.manager <;> rfl

/-- C1 (order of the checks in `Verify`). Once the store has loaded, the secret has
resolved and the verifier has returned a result without error: a result with
`Success = false` gives `success_failed` whatever its action and score; a result with
`Success = true` and an action other than the expected one gives `action_mismatch`
whatever its score. In both cases the verification result has `Success = false`. -/
theorem C1_check_order (s : captchaService) (w : World) (c c2 : Cache)
    (token ip expectedAction secret : String) (store : Store) (t : List Event)
    (res : Result)
    (hstore : Current w c = (.ok store, c2, t))
    (hsecret : (configGet w (store.PolicyFor expectedAction).1.SecretKey).1 = .ok secret)
    (hres : s.buildVerifier secret token ip = .ok res) :
    (res.Success = false →
      (s.Verify w c token ip expectedAction).1.Status = "success_failed" ∧
      (s.Verify w c token ip expectedAction).1.Success = false) ∧
    (res.Success = true → res.Action ≠ expectedAction →
      (s.Verify w c token ip expectedAction).1.Status = "action_mismatch" ∧
      (s.Verify w c token ip expectedAction).1.Success = false) := by
  have hget := configGet_trace w (store.PolicyFor expectedAction).1.SecretKey
  rw [hsecret] at hget
  refine ⟨?_, ?_⟩
  · intro hs
    simp [captchaService.Verify, captchaService.verifierFor, hstore, hget, hres, hs]
  · intro hs ha
    simp [captchaService.Verify, captchaService.verifierFor, hstore, hget, hres, hs, ha]

/-- The order of the checks at concrete results for the expected action `login` under
the policy of `loginConfig` (minimum score 0.5): a failed result with the action
`search` and the score 0.1 is `success_failed`; the same result with `Success = true`
is `action_mismatch`. -/
theorem C1_check_order_witness :
    (((googleService (replies failedSearch)).Verify (worldOf loginConfig) loginCache
        "tok" "203.0.113.7" "login").1.Status = "success_failed" ∧
      ((googleService (replies failedSearch)).Verify (worldOf loginConfig) loginCache
        "tok" "203.0.113.7" "login").1.Success = false) ∧
    (((googleService (replies passedSearch)).Verify (worldOf loginConfig) loginCache
        "tok" "203.0.113.7" "login").1.Status = "action_mismatch" ∧
      ((googleService (replies passedSearch)).Verify (worldOf loginConfig) loginCache
        "tok" "203.0.113.7" "login").1.Success = false) :=
  ⟨(C1_check_order (googleService (replies failedSearch)) (worldOf loginConfig)
      loginCache loginCache "tok" "203.0.113.7" "login" "s3cr3t" loginStore hitTrace
      ⟨false, "search", some (1 / 10), []⟩ rfl rfl rfl).1 rfl,
    (C1_check_order (googleService (replies passedSearch)) (worldOf loginConfig)
      loginCache loginCache "tok" "203.0.113.7" "login" "s3cr3t" loginStore hitTrace
      ⟨true, "search", some (1 / 10), []⟩ rfl rfl rfl).2 rfl (by decide)⟩

/-- C2 (score rule of `Verify`). For a result with `Success = true` and the expected
action, obtained after the store has loaded and the secret has resolved: the status is
`score_too_low` (with `Success = false`) exactly when a score is present and strictly
less than the `MinScore` of the resolved policy; otherwise the result is `verified`
with `Success = true`, in particular for a score equal to `MinScore` and for an
absent score. -/
theorem C2_score_rule (s : captchaService) (w : World) (c c2 : Cache)
    (token ip expectedAction secret : String) (store : Store) (t : List Event)
    (res : Result)
    (hstore : Current w c = (.ok store, c2, t))
    (hsecret : (configGet w (store.PolicyFor expectedAction).1.SecretKey).1 = .ok secret)
    (hres : s.buildVerifier secret token ip = .ok res)
    (hs : res.Success = true) (ha : res.Action = expectedAction) :
    ((s.Verify w c token ip expectedAction).1.Status = "score_too_low" ↔
      ∃ score, res.Score = some score ∧
        score < (store.PolicyFor expectedAction).1.MinScore) ∧
    ((∃ score, res.Score = some score ∧
        score < (store.PolicyFor expectedAction).1.MinScore) →
      (s.Verify w c token ip expectedAction).1.Success = false) ∧
    ((¬ ∃ score, res.Score = some score ∧
        score < (store.PolicyFor expectedAction).1.MinScore) →
      (s.Verify w c token ip expectedAction).1.Success = true ∧
      (s.Verify w c token ip expectedAction).1.Status = "verified") ∧
    (res.Score = some (store.PolicyFor expectedAction).1.MinScore →
      (s.Verify w c token ip expectedAction).1.Success = true ∧
      (s.Verify w c token ip expectedAction).1.Status = "verified") ∧
    (res.Score = none →
      (s.Verify w c token ip expectedAction).1.Success = true ∧
      (s.Verify w c token ip expectedAction).1.Status = "verified") := by
  have hget := configGet_trace w (store.PolicyFor expectedAction).1.SecretKey
  rw [hsecret] at hget
  cases hsc : res.Score with
  | none =>
    simp [captchaService.Verify, captchaService.verifierFor, hstore, hget, hres, hs, ha,
      hsc]
  | some score =>
    by_cases hlt : score < (store.PolicyFor expectedAction).1.MinScore
    · have hne : score ≠ (store.PolicyFor expectedAction).1.MinScore := ne_of_lt hlt
      simp [captchaService.Verify, captchaService.verifierFor, hstore, hget, hres, hs, ha,
        hsc, hlt, hne]
    · simp [captchaService.Verify, captchaService.verifierFor, hstore, hget, hres, hs, ha,
        hsc, hlt]

/-- The score rule under the policy of `loginConfig` (minimum score 0.5) and of
`themedConfig`: the score 0.5 passes, the score 0.3 is too low, and a Turnstile result
without a score passes. -/
theorem C2_score_rule_witness :
    (((googleService (replies (passedLogin (1 / 2)))).Verify (worldOf loginConfig)
        loginCache "tok" "203.0.113.7" "login").1.Success = true ∧
      ((googleService (replies (passedLogin (1 / 2)))).Verify (worldOf loginConfig)
        loginCache "tok" "203.0.113.7" "login").1.Status = "verified") ∧
    ((googleService (replies (passedLogin (3 / 10)))).Verify (worldOf loginConfig)
        loginCache "tok" "203.0.113.7" "login").1.Status = "score_too_low" ∧
    (((turnstileService (replies (passedTurnstile "login"))).Verify
        (worldOf themedConfig) emptyCache "tok" "203.0.113.7" "login").1.Success = true ∧
      ((turnstileService (replies (passedTurnstile "login"))).Verify
        (worldOf themedConfig) emptyCache "tok" "203.0.113.7" "login").1.Status =
          "verified") :=
  ⟨(C2_score_rule (googleService (replies (passedLogin (1 / 2)))) (worldOf loginConfig)
      loginCache loginCache "tok" "203.0.113.7" "login" "s3cr3t" loginStore hitTrace
      ⟨true, "login", some (1 / 2), []⟩ rfl rfl rfl rfl rfl).2.2.2.1 rfl,
    (C2_score_rule (googleService (replies (passedLogin (3 / 10)))) (worldOf loginConfig)
      loginCache loginCache "tok" "203.0.113.7" "login" "s3cr3t" loginStore hitTrace
      ⟨true, "login", some (3 / 10), []⟩ rfl rfl rfl rfl rfl).1.mpr
      ⟨3 / 10, rfl, by
        simp only [loginStore, Store.PolicyFor, GoMap.get?, List.lookup]
        norm_num⟩,
    (C2_score_rule (turnstileService (replies (passedTurnstile "login")))
      (worldOf themedConfig) emptyCache
      { policies := some themedStore, policyPath := policyFile,
        policyModTime := { instant := 100, loc := 0 } }
      "tok" "203.0.113.7" "login" "s3cr3t" themedStore reloadTrace
      ⟨true, "login", none, []⟩ rfl rfl rfl rfl rfl).2.2.2.2 rfl⟩

/-- The external calls of `resolvePolicyPath` are a configuration lookup and at most
one stat. -/
theorem resolvePolicyPath_events (w : World) :
    ∀ e ∈ (resolvePolicyPath w).2, (∃ key, e = Event.configGet key) ∨
      ∃ path, e = Event.stat path := by
  unfold resolvePolicyPath configGet
  cases w.manager with
  | error err => simp
  | ok mgr =>
    simp only
    cases mgr "CAPTCHA_CONFIG" with
    | error err => simp
    | ok val =>
      simp only
      split
      · simp
      · split <;> simp

/-- The function `Current` neither builds nor calls a verifier. -/
theorem Current_events (w : World) (c : Cache) :
    ∀ e ∈ (Current w c).2.2, (∀ secret, e ≠ Event.buildVerifier secret) ∧
      ∀ token ip, e ≠ Event.verify token ip := by
  have hr := resolvePolicyPath_events w
  have key : ∀ e, ((∃ key, e = Event.configGet key) ∨ (∃ path, e = Event.stat path) ∨
      (∃ path, e = Event.readFile path) ∨ (∃ data, e = Event.parse data)) →
      (∀ secret, e ≠ Event.buildVerifier secret) ∧
        ∀ token ip, e ≠ Event.verify token ip := by
    rintro e (⟨k, rfl⟩ | ⟨k, rfl⟩ | ⟨k, rfl⟩ | ⟨k, rfl⟩) <;> simp
  intro e he
  apply key
  unfold Current at he
  split at he
  · rename_i heq
    rw [heq] at hr
    rcases hr e he with h | h
    · exact Or.inl h
    · exact Or.inr (Or.inl h)
  · rename_i path t heq
    rw [heq] at hr
    have hmem : ∀ (extra : List Event),
        (∀ x ∈ extra, (∃ p, x = Event.stat p) ∨ (∃ p, x = Event.readFile p) ∨
          ∃ d, x = Event.parse d) →
        e ∈ t ++ extra →
        (∃ key, e = Event.configGet key) ∨ (∃ path, e = Event.stat path) ∨
          (∃ path, e = Event.readFile path) ∨ (∃ data, e = Event.parse data) := by
      intro extra hx hin
      rcases List.mem_append.mp hin with h | h
      · rcases hr e h with h | h
        · exact Or.inl h
        · exact Or.inr (Or.inl h)
      · exact Or.inr (hx e h)
    split at he
    · exact hmem [Event.stat path] (by simp) he
    · simp only at he
      split at he
      · exact hmem [Event.stat path] (by simp) he
      · split at he
        · refine hmem [Event.stat path, Event.readFile path] (by simp) ?_
          simpa using he
        · split at he
          · rename_i data _ _ _ _
            refine hmem [Event.stat path, Event.readFile path, Event.parse data]
              (by simp) ?_
            simpa using he
          · rename_i data _ _ _ _
            refine hmem [Event.stat path, Event.readFile path, Event.parse data]
              (by simp) ?_
            simpa using he

/-- C9 (failure classification of `Verify`). `Verify` is a total function into
`VerificationResult`, and the first failing stage decides the status: when the policy
store cannot be loaded the result is `policy_error`; otherwise, when the `SecretKey` of
the resolved policy cannot be resolved by `config.Get`, the result is `config_error`
and no verifier is built or called; otherwise, when the verifier returns an error, the
result is `verify_error`. Each of these results has `Success = false`. -/
theorem C9_failure_classification (s : captchaService) (w : World) (c : Cache)
    (token ip expectedAction : String) :
    (∀ (err : String) (c2 : Cache) (t : List Event),
      Current w c = (.error err, c2, t) →
      (s.Verify w c token ip expectedAction).1.Success = false ∧
      (s.Verify w c token ip expectedAction).1.Status = "policy_error") ∧
    (∀ (store : Store) (c2 : Cache) (t : List Event) (err : String),
      Current w c = (.ok store, c2, t) →
      (configGet w (store.PolicyFor expectedAction).1.SecretKey).1 = .error err →
      (s.Verify w c token ip expectedAction).1.Success = false ∧
      (s.Verify w c token ip expectedAction).1.Status = "config_error" ∧
      (∀ secret, Event.buildVerifier secret ∉ (s.Verify w c token ip expectedAction).2.2) ∧
      (∀ tok addr, Event.verify tok addr ∉ (s.Verify w c token ip expectedAction).2.2)) ∧
    (∀ (store : Store) (c2 : Cache) (t : List Event) (secret err : String),
      Current w c = (.ok store, c2, t) →
      (configGet w (store.PolicyFor expectedAction).1.SecretKey).1 = .ok secret →
      s.buildVerifier secret token ip = .error err →
      (s.Verify w c token ip expectedAction).1.Success = false ∧
      (s.Verify w c token ip expectedAction).1.Status = "verify_error") := by
  refine ⟨?_, ?_, ?_⟩
  · intro err c2 t hcur
    simp [captchaService.Verify, hcur]
  · intro store c2 t err hcur hsec
    have hget := configGet_trace w (store.PolicyFor expectedAction).1.SecretKey
    rw [hsec] at hget
    have hev := Current_events w c
    rw [hcur] at hev
    have hno : ∀ e, e ∈ (s.Verify w c token ip expectedAction).2.2 →
        (∀ secret, e ≠ Event.buildVerifier secret) ∧
          ∀ tok addr, e ≠ Event.verify tok addr := by
      intro e he
      simp only [captchaService.Verify, captchaService.verifierFor, hcur, hget] at he
      rcases List.mem_append.mp he with h | h
      · split at h
        · rcases List.mem_append.mp h with h | h
          · exact hev e h
          · simp only [List.mem_singleton] at h
            subst h
            simp
        · exact hev e h
      · simp only [List.mem_singleton] at h
        subst h
        simp
    refine ⟨?_, ?_, ?_, ?_⟩
    · simp [captchaService.Verify, captchaService.verifierFor, hcur, hget]
    · simp [captchaService.Verify, captchaService.verifierFor, hcur, hget]
    · intro secret hmem
      exact (hno _ hmem).1 secret rfl
    · intro tok addr hmem
      exact (hno _ hmem).2 tok addr rfl
  · intro store c2 t secret err hcur hsec hres
    have hget := configGet_trace w (store.PolicyFor expectedAction).1.SecretKey
    rw [hsec] at hget
    simp [captchaService.Verify, captchaService.verifierFor, hcur, hget, hres]

/-- The three failures in concrete worlds: `CAPTCHA_CONFIG` is unset; the policy loads
but `SECRET` is unset; the policy loads and the secret resolves but the provider cannot
be reached. -/
theorem C9_failure_classification_witness :
    ((googleService (replies (passedLogin (7 / 10)))).Verify
        (sampleWorld unsetEnv loginConfig { instant := 100, loc := 0 }) emptyCache
        "tok" "203.0.113.7" "login").1.Status = "policy_error" ∧
    (((googleService (replies (passedLogin (7 / 10)))).Verify
        (sampleWorld noSecretEnv loginConfig { instant := 100, loc := 0 }) loginCache
        "tok" "203.0.113.7" "login").1.Status = "config_error" ∧
      ∀ secret, Event.buildVerifier secret ∉
        ((googleService (replies (passedLogin (7 / 10)))).Verify
          (sampleWorld noSecretEnv loginConfig { instant := 100, loc := 0 }) loginCache
          "tok" "203.0.113.7" "login").2.2) ∧
    ((googleService (unreachable googleRaw)).Verify (worldOf loginConfig) loginCache
        "tok" "203.0.113.7" "login").1.Status = "verify_error" :=
  ⟨((C9_failure_classification (googleService (replies (passedLogin (7 / 10))))
      (sampleWorld unsetEnv loginConfig { instant := 100, loc := 0 }) emptyCache
      "tok" "203.0.113.7" "login").1 "CAPTCHA_CONFIG must be set" emptyCache
      [Event.configGet "CAPTCHA_CONFIG"] rfl).2,
    ⟨((C9_failure_classification (googleService (replies (passedLogin (7 / 10))))
        (sampleWorld noSecretEnv loginConfig { instant := 100, loc := 0 }) loginCache
        "tok" "203.0.113.7" "login").2.1 loginStore loginCache hitTrace
        "env SECRET not set" rfl rfl).2.1,
      ((C9_failure_classification (googleService (replies (passedLogin (7 / 10))))
        (sampleWorld noSecretEnv loginConfig { instant := 100, loc := 0 }) loginCache
        "tok" "203.0.113.7" "login").2.1 loginStore loginCache hitTrace
        "env SECRET not set" rfl rfl).2.2.1⟩,
    ((C9_failure_classification (googleService (unreachable googleRaw))
      (worldOf loginConfig) loginCache "tok" "203.0.113.7" "login").2.2 loginStore
      loginCache hitTrace "s3cr3t" "context deadline exceeded" rfl rfl rfl).2⟩

/-- C10, as the code has it. For a result with `Success = true` and no score, obtained
after the store has loaded and the secret has resolved, only the score check is left
out: the action check is applied all the same. The result is `action_mismatch` with
`Success = false` whenever the action differs from the expected one, in particular
when the action is absent (the empty string) and the expected action is not empty, and
it is `verified` with `Success = true` when the action is the expected one. The
Turnstile verifier never reports a score. -/
theorem C10_action_check_unconditional (s : captchaService) (w : World) (c c2 : Cache)
    (token ip expectedAction secret : String) (store : Store) (t : List Event)
    (res : Result)
    (hstore : Current w c = (.ok store, c2, t))
    (hsecret : (configGet w (store.PolicyFor expectedAction).1.SecretKey).1 = .ok secret)
    (hres : s.buildVerifier secret token ip = .ok res)
    (hs : res.Success = true) (hscore : res.Score = none) :
    (res.Action ≠ expectedAction →
      (s.Verify w c token ip expectedAction).1.Status = "action_mismatch" ∧
      (s.Verify w c token ip expectedAction).1.Success = false) ∧
    (res.Action = "" → expectedAction ≠ "" →
      (s.Verify w c token ip expectedAction).1.Status = "action_mismatch" ∧
      (s.Verify w c token ip expectedAction).1.Success = false) ∧
    (res.Action = expectedAction →
      (s.Verify w c token ip expectedAction).1.Status = "verified" ∧
      (s.Verify w c token ip expectedAction).1.Success = true) ∧
    (∀ (remote : Remote turnstileRaw) (sec tok addr : String) (r : Result),
      Turnstile.Verify remote sec tok addr = .ok r → r.Score = none) := by
  have hget := configGet_trace w (store.PolicyFor expectedAction).1.SecretKey
  rw [hsecret] at hget
  have hmis : res.Action ≠ expectedAction →
      (s.Verify w c token ip expectedAction).1.Status = "action_mismatch" ∧
      (s.Verify w c token ip expectedAction).1.Success = false := by
    intro ha
    simp [captchaService.Verify, captchaService.verifierFor, hstore, hget, hres, hs, ha]
  refine ⟨hmis, ?_, ?_, ?_⟩
  · intro hempty hexp
    apply hmis
    rw [hempty]
    exact fun h => hexp h.symm
  · intro ha
    simp [captchaService.Verify, captchaService.verifierFor, hstore, hget, hres, hs, ha,
      hscore]
  · intro remote sec tok addr r hr
    unfold Turnstile.Verify at hr
    split at hr
    · cases hr
    · split at hr
      · cases hr
      · simp only [Except.ok.injEq] at hr
        rw [← hr]

/-- The amended C10 at a Turnstile answer `{"success": true}` (no action, no score)
for the expected action `login`, and at an answer that echoes `login`. -/
theorem C10_action_check_unconditional_witness :
    (((turnstileService (replies (passedTurnstile ""))).Verify (worldOf themedConfig)
        emptyCache "tok" "203.0.113.7" "login").1.Status = "action_mismatch" ∧
      ((turnstileService (replies (passedTurnstile ""))).Verify (worldOf themedConfig)
        emptyCache "tok" "203.0.113.7" "login").1.Success = false) ∧
    (((turnstileService (replies (passedTurnstile "login"))).Verify
        (worldOf themedConfig) emptyCache "tok" "203.0.113.7" "login").1.Status =
          "verified" ∧
      ((turnstileService (replies (passedTurnstile "login"))).Verify
        (worldOf themedConfig) emptyCache "tok" "203.0.113.7" "login").1.Success = true) :=
  ⟨(C10_action_check_unconditional (turnstileService (replies (passedTurnstile "")))
      (worldOf themedConfig) emptyCache
      { policies := some themedStore, policyPath := policyFile,
        policyModTime := { instant := 100, loc := 0 } }
      "tok" "203.0.113.7" "login" "s3cr3t" themedStore reloadTrace
      ⟨true, "", none, []⟩ rfl rfl rfl rfl rfl).2.1 rfl (by decide),
    (C10_action_check_unconditional
      (turnstileService (replies (passedTurnstile "login")))
      (worldOf themedConfig) emptyCache
      { policies := some themedStore, policyPath := policyFile,
        policyModTime := { instant := 100, loc := 0 } }
      "tok" "203.0.113.7" "login" "s3cr3t" themedStore reloadTrace
      ⟨true, "login", none, []⟩ rfl rfl rfl rfl rfl).2.2.1 rfl⟩

/-- C10 fails as stated: the Turnstile answer `{"success": true}` carries no action and
no score, the expected action `login` is not empty, and `Verify` answers
`action_mismatch` with `Success = false`, not `verified`. -/
theorem C10_counterexample :
    Turnstile.Verify (replies (passedTurnstile "")) "s3cr3t" "tok" "203.0.113.7" =
      .ok { Success := true, Action := "", Score := none, ErrorCodes := [] } ∧
    ((turnstileService (replies (passedTurnstile ""))).Verify (worldOf themedConfig)
        emptyCache "tok" "203.0.113.7" "login").1 =
      { Success := false, Status := "action_mismatch",
        Message := "captcha action mismatch: expected 'login', got ''" } ∧
    ¬ (((turnstileService (replies (passedTurnstile ""))).Verify (worldOf themedConfig)
        emptyCache "tok" "203.0.113.7" "login").1.Status = "verified" ∧
      ((turnstileService (replies (passedTurnstile ""))).Verify (worldOf themedConfig)
        emptyCache "tok" "203.0.113.7" "login").1.Success = true) := by
  refine ⟨rfl, rfl, ?_⟩
  intro h
  have hfalse : ((turnstileService (replies (passedTurnstile ""))).Verify
      (worldOf themedConfig) emptyCache "tok" "203.0.113.7" "login").1.Success = false :=
    rfl
  rw [hfalse] at h
  exact Bool.noConfusion h.2

/-! ## The site key of a document without `global.site_key` -/

/-- The loop of `parseAndBuild` ends without error when no action name is blank. -/
theorem actionsLoop_ok (base : Policy) (l : List (String × rawPolicy)) :
    ∀ (acc : GoMap Policy) (miss : Bool), (∀ kv ∈ l, TrimSpace kv.1 ≠ "") →
      ∃ acts miss2, actionsLoop base l acc miss = .ok (acts, miss2) := by
  induction l with
  | nil =>
    intro acc miss _
    exact ⟨acc, miss, rfl⟩
  | cons e l ih =>
    obtain ⟨name, raw⟩ := e
    intro acc miss hnames
    rw [actionsLoop_cons, if_neg (hnames (name, raw) (List.mem_cons_self _ _))]
    exact ih _ _ (fun kv hkv => hnames kv (List.mem_cons_of_mem _ hkv))

/-- A document without `global.site_key` is rejected with the site-key error, whatever
site keys its actions have, once the provider is not blank, there is an action and no
action name is blank. -/
theorem parseAndBuild_without_global_site_key
    (unmarshal : List Nat → Except String rawPolicyConfig)
    (data : List Nat) (cfg : rawPolicyConfig)
    (hcfg : unmarshal data = .ok cfg)
    (hprov : TrimSpace cfg.Provider ≠ "")
    (hactions : cfg.Actions ≠ [])
    (hnames : ∀ kv ∈ cfg.Actions, TrimSpace kv.1 ≠ "")
    (hglobal : cfg.Global.SiteKey = "") :
    parseAndBuild unmarshal data =
      .error "captcha policy requires a site_key in global or for every action" := by
  have hlen : ¬ cfg.Actions.length = 0 := by
    intro h
    exact hactions (List.length_eq_zero.mp h)
  have hempty : TrimSpace "" = "" := rfl
  cases hm : cfg.Global.MinScore with
  | none =>
    obtain ⟨acts, miss2, hloop⟩ := actionsLoop_ok
      { MinScore := defaultMinScore, SiteKey := "",
        SecretKey := TrimSpace cfg.Global.SecretKey, Theme := TrimSpace cfg.Global.Theme,
        Appearance := TrimSpace cfg.Global.Appearance } cfg.Actions [] true hnames
    have hmiss := actionsLoop_missing_mono _ _ _ _ _ _ hloop rfl
    subst hmiss
    simp [parseAndBuild, hcfg, hprov, hlen, hm, hglobal, hempty, hloop]
  | some m =>
    obtain ⟨acts, miss2, hloop⟩ := actionsLoop_ok
      { MinScore := m, SiteKey := "",
        SecretKey := TrimSpace cfg.Global.SecretKey, Theme := TrimSpace cfg.Global.Theme,
        Appearance := TrimSpace cfg.Global.Appearance } cfg.Actions [] true hnames
    have hmiss := actionsLoop_missing_mono _ _ _ _ _ _ hloop rfl
    subst hmiss
    simp [parseAndBuild, hcfg, hprov, hlen, hm, hglobal, hempty, hloop]

/-- With a site key in `base` the loop of `parseAndBuild` never raises the flag
`missingSiteKey`. -/
theorem actionsLoop_missing_keep (base : Policy) (hbase : base.SiteKey ≠ "")
    (l : List (String × rawPolicy)) :
    ∀ (acc : GoMap Policy) (miss : Bool) (acts : GoMap Policy) (miss2 : Bool),
      actionsLoop base l acc miss = .ok (acts, miss2) → miss2 = miss := by
  induction l with
  | nil =>
    intro acc miss acts miss2 h
    simp only [actionsLoop, Except.ok.injEq, Prod.mk.injEq] at h
    exact h.2.symm
  | cons e l ih =>
    obtain ⟨name, raw⟩ := e
    intro acc miss acts miss2 h
    rw [actionsLoop_cons] at h
    split at h
    · cases h
    · have h2 := ih _ _ _ _ h
      rw [h2]
      simp [hbase]

/-- A document with a non-blank provider, an action, no blank action name and a
non-blank `global.site_key` is accepted. -/
theorem parseAndBuild_with_global_site_key
    (unmarshal : List Nat → Except String rawPolicyConfig)
    (data : List Nat) (cfg : rawPolicyConfig)
    (hcfg : unmarshal data = .ok cfg)
    (hprov : TrimSpace cfg.Provider ≠ "")
    (hactions : cfg.Actions ≠ [])
    (hnames : ∀ kv ∈ cfg.Actions, TrimSpace kv.1 ≠ "")
    (hglobal : TrimSpace cfg.Global.SiteKey ≠ "") :
    ∃ store, parseAndBuild unmarshal data = .ok store := by
  have hlen : ¬ cfg.Actions.length = 0 := by
    intro h
    exact hactions (List.length_eq_zero.mp h)
  cases hm : cfg.Global.MinScore with
  | none =>
    obtain ⟨acts, miss2, hloop⟩ := actionsLoop_ok
      { MinScore := defaultMinScore, SiteKey := TrimSpace cfg.Global.SiteKey,
        SecretKey := TrimSpace cfg.Global.SecretKey, Theme := TrimSpace cfg.Global.Theme,
        Appearance := TrimSpace cfg.Global.Appearance } cfg.Actions [] false hnames
    have hmiss := actionsLoop_missing_keep _ hglobal _ _ _ _ _ hloop
    subst hmiss
    simp [parseAndBuild, hcfg, hprov, hlen, hm, hglobal, hloop]
  | some m =>
    obtain ⟨acts, miss2, hloop⟩ := actionsLoop_ok
      { MinScore := m, SiteKey := TrimSpace cfg.Global.SiteKey,
        SecretKey := TrimSpace cfg.Global.SecretKey, Theme := TrimSpace cfg.Global.Theme,
        Appearance := TrimSpace cfg.Global.Appearance } cfg.Actions [] false hnames
    have hmiss := actionsLoop_missing_keep _ hglobal _ _ _ _ _ hloop
    subst hmiss
    simp [parseAndBuild, hcfg, hprov, hlen, hm, hglobal, hloop]

/-- C11, as the code has it. A site key for every action is not enough, the site key
in global is required. For every decoded document with a non-blank provider, at least
one action, no blank action name and a non-blank `site_key` on every action: with a
non-blank `global.site_key` the document is accepted by `parseAndBuild`, the global
policy carries the trimmed global site key and (action names being distinct) each
action's policy carries its own trimmed `site_key`; with no `global.site_key` the
document is rejected with the error "captcha policy requires a site_key in global or
for every action". -/
theorem C11_global_site_key_required
    (unmarshal : List Nat → Except String rawPolicyConfig)
    (data : List Nat) (cfg : rawPolicyConfig)
    (hcfg : unmarshal data = .ok cfg)
    (hprov : TrimSpace cfg.Provider ≠ "")
    (hactions : cfg.Actions ≠ [])
    (hnames : ∀ kv ∈ cfg.Actions, TrimSpace kv.1 ≠ "")
    (hown : ∀ kv ∈ cfg.Actions, TrimSpace kv.2.SiteKey ≠ "") :
    (TrimSpace cfg.Global.SiteKey ≠ "" →
      ∃ store, parseAndBuild unmarshal data = .ok store ∧
        store.global.SiteKey = TrimSpace cfg.Global.SiteKey ∧
        (cfg.Actions.keys.Nodup → ∀ (name : String) (raw : rawPolicy),
          (name, raw) ∈ cfg.Actions →
          ∃ p, store.PolicyFor name = (p, true) ∧ p.SiteKey = TrimSpace raw.SiteKey)) ∧
    (cfg.Global.SiteKey = "" →
      parseAndBuild unmarshal data =
        .error "captcha policy requires a site_key in global or for every action") := by
  refine ⟨?_, ?_⟩
  · intro hglobal
    obtain ⟨store, hok⟩ :=
      parseAndBuild_with_global_site_key unmarshal data cfg hcfg hprov hactions hnames
        hglobal
    obtain ⟨_, _, _, hg, _, hloop⟩ := parseAndBuild_ok unmarshal data cfg store hcfg hok
    refine ⟨store, hok, by rw [hg]; rfl, ?_⟩
    intro hnd name raw hmem
    have hp := (actionsLoop_get _ _ _ _ _ _ hnd hloop).1 name raw hmem
    refine ⟨(store.PolicyFor name).1, by simp only [Store.PolicyFor, hp], ?_⟩
    have hraw : TrimSpace raw.SiteKey ≠ "" := hown (name, raw) hmem
    simp [Store.PolicyFor, hp, overlay, hraw]
  · intro hglobal
    exact parseAndBuild_without_global_site_key unmarshal data cfg hcfg hprov hactions
      hnames hglobal

/-- The amended C11 at two documents whose actions `login` and `search` have the site
keys `sk-login` and `sk-search`: with the global site key `sk` the document is accepted
and `login` keeps `sk-login`; without a global site key it is rejected. -/
theorem C11_global_site_key_required_witness :
    (∃ store, parseAndBuild (decodeAs bothSiteKeysConfig) [123, 125] = .ok store ∧
      store.global.SiteKey = "sk" ∧
      ∃ p, store.PolicyFor "login" = (p, true) ∧ p.SiteKey = "sk-login") ∧
    parseAndBuild (decodeAs ownSiteKeysConfig) [123, 125] =
      .error "captcha policy requires a site_key in global or for every action" :=
  have hboth := (C11_global_site_key_required (decodeAs bothSiteKeysConfig) [123, 125]
    bothSiteKeysConfig rfl (by decide) (by simp [bothSiteKeysConfig, ownSiteKeysConfig])
    (by decide) (by decide)).1 (by decide)
  have hown := (C11_global_site_key_required (decodeAs ownSiteKeysConfig) [123, 125]
    ownSiteKeysConfig rfl (by decide) (by simp [ownSiteKeysConfig]) (by decide)
    (by decide)).2 rfl
  ⟨hboth.elim fun store h =>
      ⟨store, h.1, h.2.1, h.2.2 (by decide) "login" ⟨none, "sk-login", "", "", ""⟩
        (by simp [bothSiteKeysConfig, ownSiteKeysConfig])⟩,
    hown⟩

/-- C11 fails as stated: the document `ownSiteKeysConfig` has a non-blank provider, two
actions with non-blank names, no `global.site_key` and a non-blank `site_key` on every
action, and `parseAndBuild` rejects it instead of accepting it. -/
theorem C11_counterexample :
    TrimSpace ownSiteKeysConfig.Provider ≠ "" ∧
    ownSiteKeysConfig.Actions.length = 2 ∧
    (∀ kv ∈ ownSiteKeysConfig.Actions, TrimSpace kv.1 ≠ "") ∧
    ownSiteKeysConfig.Global.SiteKey = "" ∧
    (∀ kv ∈ ownSiteKeysConfig.Actions, TrimSpace kv.2.SiteKey ≠ "") ∧
    parseAndBuild (decodeAs ownSiteKeysConfig) [123, 125] =
      .error "captcha policy requires a site_key in global or for every action" ∧
    ¬ ∃ store, parseAndBuild (decodeAs ownSiteKeysConfig) [123, 125] = .ok store := by
  have hrej : parseAndBuild (decodeAs ownSiteKeysConfig) [123, 125] =
      .error "captcha policy requires a site_key in global or for every action" := rfl
  refine ⟨by decide, rfl, by decide, rfl, by decide, hrej, ?_⟩
  rintro ⟨store, hstore⟩
  rw [hrej] at hstore
  cases hstore

end Captcha
